import Mathlib

/-!
# Verification of `find_extract_IGMD.py` and `scan_for_metadata/diffusion_scanner.py`

A shallow embedding, in Lean 4, of the archive-aware selective extraction
orchestrator of the repository `AI_media_meta_tools`.  Python functions become
Lean functions; the filesystem becomes an explicit association list from paths
to byte contents; Python exceptions become `Except`; the external collaborators
(archive codec `archive.read`, PIL-based metadata readers, the `exiftool`
subprocess) become oracle parameters, since their internals are outside the
program under verification.

Each definition mirrors one function of the source, with the source line
numbers noted in its doc comment.
-/

set_option autoImplicit false

namespace IGMD

/-- Byte strings are modelled as lists of naturals (one per byte). -/
abbrev Bytes := List Nat

/-- The filesystem: an association list from absolute path to file contents.
`fsWrite` models Python `open(path, 'wb')` + `write` (truncating overwrite). -/
abbrev Fs := List (String × Bytes)

/-- Look up the contents stored at `p`, if any. -/
def fsLookup (p : String) (fs : Fs) : Option Bytes :=
  match fs with
  | [] => none
  | (q, c) :: rest => if q = p then some c else fsLookup p rest

/-- `os.path.exists` restricted to files of the model. -/
def fsExists (p : String) (fs : Fs) : Bool :=
  (fsLookup p fs).isSome

/-- Truncating write: any previous entry at `p` is dropped (last writer wins). -/
def fsWrite (p : String) (c : Bytes) (fs : Fs) : Fs :=
  (p, c) :: fs.filter (fun e => e.1 ≠ p)

/-- `os.remove`. -/
def fsRemove (p : String) (fs : Fs) : Fs :=
  fs.filter (fun e => e.1 ≠ p)

/-- `os.path.join` for the two-argument uses of the script (POSIX separator). -/
def pathJoin (a b : String) : String := a ++ "/" ++ b

/-- ASCII lower-casing of one character (the case distinctions the script
makes are all on ASCII extensions and trigger words). -/
def lowerChar (c : Char) : Char :=
  if 65 ≤ c.toNat ∧ c.toNat ≤ 90 then Char.ofNat (c.toNat + 32) else c

/-- Python `str.lower()` (ASCII fragment). -/
def pyLower (s : String) : String := ⟨s.data.map lowerChar⟩

/-- Python `str.endswith(suffix)`. -/
def pyEndsWith (s suffix : String) : Bool := suffix.data.isSuffixOf s.data

/-- Occurrence of `needle` as a contiguous sublist of `hay`. -/
def infixOfChars (needle : List Char) : List Char → Bool
  | [] => needle.isEmpty
  | x :: xs => needle.isPrefixOf (x :: xs) || infixOfChars needle xs

/-- Python `str.split(c)` on a single-character separator. -/
def splitOnChar (c : Char) : List Char → List (List Char)
  | [] => [[]]
  | x :: xs =>
      let r := splitOnChar c xs
      if x = c then [] :: r
      else
        match r with
        | [] => [[x]]
        | h :: t => (x :: h) :: t

/-- `os.path.basename`: the part after the last `/`. -/
def baseName (s : String) : String := ⟨(splitOnChar '/' s.data).getLastD []⟩

@[simp] theorem fsLookup_fsWrite_self (p : String) (c : Bytes) (fs : Fs) :
    fsLookup p (fsWrite p c fs) = some c := by
  simp [fsLookup, fsWrite]

theorem fsLookup_fsRemove_self (p : String) (fs : Fs) :
    fsLookup p (fsRemove p fs) = none := by
  induction fs with
  | nil => rfl
  | cons e rest ih =>
      by_cases h : e.1 = p
      · simpa [fsRemove, fsLookup, h] using ih
      · simpa [fsRemove, fsLookup, h] using ih

theorem fsExists_fsRemove_self (p : String) (fs : Fs) :
    fsExists p (fsRemove p fs) = false := by
  simp [fsExists, fsLookup_fsRemove_self]

/-! ## The archive entry task (`process_image_in_archive`, lines 97–121)

One task handles one image entry of one archive.  The two external calls a
task makes — `archive.read(name)` (via `extract_image_from_archive`) and
`ImageGenerationMetadata.contains_image_generation_metadata(temp_file_path)` —
are oracles: `extract` is the outcome of reading this entry's bytes, and
`classify` is the classifier's outcome on the bytes found in the temporary
file (the classifier itself may raise).  `Except.error s` models a raised
exception carrying message `s`. -/

structure TaskEnv where
  extract : Except String Bytes
  classify : Bytes → Except String Bool

/-- `process_image_in_archive(archive, name, file_path, sub_dir, progress_bar)`
(source lines 97–121), as a state transformer on the filesystem.

Control flow mirrors the source exactly:
* line 101: `content = await extract_image_from_archive(archive, name)` is
  executed BEFORE the `try:` of line 104, so an extraction failure propagates
  out of the task (first component `Except.error`);
* lines 104–113 (`try:` body): write `content` to the shared temporary path
  `sub_dir/temp_image`, classify it, and on a match copy the bytes to
  `sub_dir/<basename sub_dir>-<basename name>` and return `True`;
* lines 114–115 (`except Exception`): a classifier exception is swallowed and
  the function falls through to `return False` (line 121);
* lines 116–119 (`finally:`): remove the temporary file if it exists. -/
def process_image_in_archive (env : TaskEnv) (sub_dir name : String) (fs : Fs) :
    Except String Bool × Fs :=
  match env.extract with
  | .error e => (.error e, fs)
  | .ok content =>
      let temp_file_path := pathJoin sub_dir "temp_image"
      let fs1 := fsWrite temp_file_path content fs
      let body : Bool × Fs :=
        match env.classify content with
        | .error _ => (false, fs1)
        | .ok true =>
            let out_name := baseName sub_dir ++ "-" ++ baseName name
            let dest_path := pathJoin sub_dir out_name
            (true, fsWrite dest_path content fs1)
        | .ok false => (false, fs1)
      (.ok body.1, fsRemove temp_file_path body.2)

/-- The verdict a task produces, as a function of its oracles alone (it does
not depend on the filesystem it starts from). -/
def taskResult (env : TaskEnv) : Except String Bool :=
  match env.extract with
  | .error e => .error e
  | .ok content =>
      match env.classify content with
      | .error _ => .ok false
      | .ok b => .ok b

theorem process_image_in_archive_fst (env : TaskEnv) (sub_dir name : String) (fs : Fs) :
    (process_image_in_archive env sub_dir name fs).1 = taskResult env := by
  unfold process_image_in_archive taskResult
  rcases env.extract with e | content
  · rfl
  · rcases h : env.classify content with e | b
    · simp [h]
    · cases b <;> simp [h]

/-! ## Per-archive aggregation (`process_archive`, lines 76–95)

`process_archive` filters `archive.namelist()` to recognized image extensions
(line 78), fans out one `process_image_in_archive` task per remaining entry
(lines 81–85, `asyncio.gather`), and sets the archive verdict to
`any(results)` (lines 87–88).  `runTasks` runs the tasks and collects every
task's outcome (the effects of all tasks happen; a task's verdict does not
depend on the interleaving, by `process_image_in_archive_fst`);
`archiveVerdict` is `any(results)` when no task raised and the propagated
exception otherwise, matching `await asyncio.gather(*tasks)` re-raising a
task's exception in `process_archive`. -/

def recognizedEntry (name : String) : Bool :=
  pyEndsWith (pyLower name) ".jpg" || pyEndsWith (pyLower name) ".jpeg" ||
  pyEndsWith (pyLower name) ".png" || pyEndsWith (pyLower name) ".webp"

def runTasks (sub_dir : String) : List (TaskEnv × String) → Fs → List (Except String Bool) × Fs
  | [], fs => ([], fs)
  | (env, name) :: rest, fs =>
      let step := process_image_in_archive env sub_dir name fs
      let tail := runTasks sub_dir rest step.2
      (step.1 :: tail.1, tail.2)

def collectResults : List (Except String Bool) → Except String (List Bool)
  | [] => .ok []
  | r :: rs =>
      match r with
      | .error e => .error e
      | .ok b =>
          match collectResults rs with
          | .error e => .error e
          | .ok bs => .ok (b :: bs)

/-- `igmd_found = any(results)` (lines 87–88), after `asyncio.gather` either
delivers every task's boolean or re-raises a task's exception. -/
def archiveVerdict (rs : List (Except String Bool)) : Except String Bool :=
  match collectResults rs with
  | .error e => .error e
  | .ok bs => .ok (bs.any id)

/-- Lines 78–95 of `process_archive`, once the destination directory
`sub_dir` is fixed: filter the entry list, run one task per recognized entry
(`taskOf` gives each entry's oracles), aggregate. -/
def process_archive_core (taskOf : String → TaskEnv) (sub_dir : String)
    (namelist : List String) (fs : Fs) : Except String Bool × Fs :=
  let file_names := namelist.filter recognizedEntry
  let run := runTasks sub_dir (file_names.map (fun n => (taskOf n, n))) fs
  (archiveVerdict run.1, run.2)

theorem runTasks_fst (sub_dir : String) (ts : List (TaskEnv × String)) (fs : Fs) :
    (runTasks sub_dir ts fs).1 = ts.map (fun t => taskResult t.1) := by
  induction ts generalizing fs with
  | nil => rfl
  | cons t rest ih =>
      simp [runTasks, process_image_in_archive_fst, ih]

/-! ## Destination directory resolution (`process_archive`, lines 64–75)

If the archive's base name contains (case-insensitively) `"merged"` or
`"chapter"`, the code probes `dest/<base>-1`, `dest/<base>-2`, … with
`os.path.exists` until a free name is found; otherwise it uses
`dest/<base>` unconditionally.  `pathExists` is the `os.path.exists` oracle.
The `while` loop is modelled with explicit fuel; `chooseSubDir_probe_eq`
shows the result is the first free candidate whenever the fuel suffices. -/

/-- Python's `needle in hay` substring test, executably: `hay.split(needle)`
has more than one part exactly when `needle` occurs in `hay`. -/
def substrIn (needle hay : String) : Bool :=
  infixOfChars needle.data hay.data

/-- The candidate name `f"{sub_dir_base}-{count}"` of lines 68 and 71. -/
def candidate (dest_dir file_name : String) (count : Nat) : String :=
  pathJoin dest_dir file_name ++ "-" ++ toString count

/-- The `while os.path.exists(sub_dir)` loop of lines 69–71, with fuel. -/
def probe (pathExists : String → Bool) (dest_dir file_name : String) :
    Nat → Nat → String
  | 0, count => candidate dest_dir file_name count
  | fuel + 1, count =>
      if pathExists (candidate dest_dir file_name count) then
        probe pathExists dest_dir file_name fuel (count + 1)
      else
        candidate dest_dir file_name count

/-- Lines 64–73: the destination sub-directory chosen for one archive, given
the base file name (extension already stripped, line 51). -/
def chooseSubDir (pathExists : String → Bool) (fuel : Nat)
    (dest_dir file_name : String) : String :=
  if substrIn "merged" (pyLower file_name) || substrIn "chapter" (pyLower file_name) then
    probe pathExists dest_dir file_name fuel 1
  else
    pathJoin dest_dir file_name

theorem probe_eq_first_free (pathExists : String → Bool) (dest_dir file_name : String)
    (fuel count N : Nat)
    (hle : count ≤ N) (hub : N ≤ count + fuel)
    (htaken : ∀ m, count ≤ m → m < N → pathExists (candidate dest_dir file_name m) = true)
    (hfree : pathExists (candidate dest_dir file_name N) = false) :
    probe pathExists dest_dir file_name fuel count = candidate dest_dir file_name N := by
  induction fuel generalizing count with
  | zero =>
      have : count = N := le_antisymm hle (by simpa using hub)
      simp [probe, this]
  | succ fuel ih =>
      rcases eq_or_lt_of_le hle with heq | hlt
      · subst heq
        simp [probe, hfree]
      · have htk := htaken count le_rfl hlt
        simp only [probe, htk, if_true]
        exact ih (count + 1) hlt (by omega)
          (fun m hm hmN => htaken m (by omega) hmN)

/-! ## The module's global namespace and the archive-open step
(`find_extract_IGMD.py`, lines 1–14 and 53–62)

Lines 1–8 import `sys, os, asyncio, aiofiles, zipfile, rarfile, shutil` and
`from tqdm import tqdm`; line 14 imports `MetadataScanner`,
`ImageGenerationMetadata`, `set_verbose_output` from `diffusion_scanner`; the
`def` statements bind the module's own functions.  No statement ever binds
`BytesIO`, so evaluating the name `BytesIO` at line 58 or 60 raises
`NameError`. -/

/-- Every name bound at module level in `find_extract_IGMD.py` (imports of
lines 1–14 plus every `def` of the file). -/
def module_level_names : List String :=
  ["sys", "os", "asyncio", "aiofiles", "zipfile", "rarfile", "shutil", "tqdm",
   "MetadataScanner", "ImageGenerationMetadata", "set_verbose_output",
   "debug", "process_image", "extract_image_from_archive", "process_archive",
   "process_image_in_archive", "process_files", "log_non_igmd_files",
   "check_requirements", "validate_directories", "print_help"]

/-- Python name resolution at module scope (no relevant local bindings). -/
def name_defined (n : String) : Bool := module_level_names.contains n

/-- `os.path.splitext(...)[0]` on a base name: everything before the last
dot, unless every character before that dot is itself a dot (CPython keeps
leading dots with the root, e.g. `splitext(".cbz") = (".cbz", "")`). -/
def splitExtRoot (s : String) : String :=
  let cs := s.data
  let dotIdxs := (List.range cs.length).filter (fun i => cs.getD i ' ' = '.')
  match dotIdxs.getLast? with
  | none => s
  | some i => if (cs.take i).any (fun c => c ≠ '.') then ⟨cs.take i⟩ else s

inductive PyError where
  | nameError (missing : String)
  | valueError (msg : String)
  deriving DecidableEq, Repr

/-- Lines 53–75 of `process_archive`: read the archive bytes (assumed read,
passed as `archive_data`), construct the archive handle, then resolve the
destination sub-directory.  Lines 57–60 evaluate `BytesIO(archive_data)`,
which first resolves the name `BytesIO`; an unbound name raises `NameError`
and nothing catches it inside `process_archive`.  On success the function
would go on to lines 64–75 (`chooseSubDir`); the returned string is the
resolved sub-directory, so `Except.error` means resolution was never
reached. -/
def process_archive_resolve (pathExists : String → Bool) (fuel : Nat)
    (file_path dest_dir : String) (archive_data : Bytes) : Except PyError String :=
  let _ := archive_data
  if pyEndsWith (pyLower file_path) ".cbz" then
    if name_defined "BytesIO" then
      .ok (chooseSubDir pathExists fuel dest_dir
        (splitExtRoot (baseName file_path)))
    else .error (.nameError "BytesIO")
  else if pyEndsWith (pyLower file_path) ".cbr" then
    if name_defined "BytesIO" then
      .ok (chooseSubDir pathExists fuel dest_dir
        (splitExtRoot (baseName file_path)))
    else .error (.nameError "BytesIO")
  else
    .error (.valueError ("Unsupported archive type: " ++ file_path))

/-! ## Top-level dispatch (`process_files`, lines 123–146)

For each file found by `os.walk`, line 135 computes
`ext = file.lower().split('.')[-1]`; images go to `process_image`, archives
to `process_archive`, and (when `--log_non-igmd` is given) every file
additionally gets a `log_non_igmd_files` task.  `await asyncio.gather(*tasks)`
at line 145 has no `try`, so any task's exception escapes `process_files`. -/

def fileExt (file : String) : String :=
  ⟨(splitOnChar '.' (pyLower file).data).getLastD []⟩

def isImageExt (e : String) : Bool := ["jpg", "jpeg", "png", "webp"].contains e

def isArchiveExt (e : String) : Bool := ["cbz", "cbr"].contains e

/-- The outcome of the one processing task dispatched for `file_path`
(ignoring the optional logging task, which touches only the log file).
Image tasks construct no archive handle, so they never hit the unbound
`BytesIO`; they are summarised as succeeding. -/
def dispatch_outcome (pathExists : String → Bool) (fuel : Nat)
    (dest_dir : String) (archive_data : Bytes) (file_path : String) :
    Except PyError Unit :=
  let e := fileExt file_path
  if isImageExt e then .ok ()
  else if isArchiveExt e then
    match process_archive_resolve pathExists fuel file_path dest_dir archive_data with
    | .error err => .error err
    | .ok _ => .ok ()
  else .ok ()

/-- `await asyncio.gather(*tasks)` at line 145: the run completes normally
only if every dispatched task does; otherwise a task's exception is
re-raised out of `process_files`. -/
def process_files_outcome (pathExists : String → Bool) (fuel : Nat)
    (dest_dir : String) (archive_data : Bytes) : List String → Except PyError Unit
  | [] => .ok ()
  | f :: fs =>
      match dispatch_outcome pathExists fuel dest_dir archive_data f with
      | .error e => .error e
      | .ok _ => process_files_outcome pathExists fuel dest_dir archive_data fs

/-! ## The loose image processor (`process_image`, lines 20–36)

`classify` is the oracle for
`ImageGenerationMetadata.contains_image_generation_metadata(file_path)`
(line 26; it is total — the classifier catches its own exceptions and returns
a boolean, diffusion_scanner.py lines 154–183).  Line 25 also calls
`ImageGenerationMetadata.read_metadata` but discards the result
(`file_params` is never used), so it contributes no observable effect.  The
third component counts the calls made to the classifier on this path: the
source contains exactly one such call.  On a match the source re-reads the
file and writes its bytes to `dest_dir/<basename>` in mode `'wb'`
(truncate), so an existing file of the same name is overwritten. -/
def process_image (classify : String → Bool) (file_path dest_dir : String)
    (fs : Fs) : Except String Bool × Fs × Nat :=
  let classifierCalls := 1
  if classify file_path then
    match fsLookup file_path fs with
    | none => (.error "FileNotFoundError", fs, classifierCalls)
    | some content =>
        let dest_path := pathJoin dest_dir (baseName file_path)
        (.ok true, fsWrite dest_path content fs, classifierCalls)
  else
    (.ok false, fs, classifierCalls)

/-! ## The miss logger (`log_non_igmd_files`, lines 148–180, and its
dispatch in `process_files`, lines 142–143)

When `--log_non-igmd` is given, `process_files` appends one
`log_non_igmd_files` task for EVERY file visited by `os.walk` (line 142 sits
in the per-file loop, after the extension dispatch and regardless of it).
`log_non_igmd_files` checks the classifier on the path; on "no metadata" it
spawns `exiftool` and, when the tool exits 0, appends `stdout` followed by
`'\n'` to the log file.  Archive-internal entries are classified inside
`process_image_in_archive`, which never calls `log_non_igmd_files`, so only
walked (top-level) paths can be logged.

`hasMeta p` is the classifier oracle for path `p`; `exiftool p` is the
subprocess outcome (`.ok stdout` for exit code 0, `.error stderr`
otherwise).  The log file is modelled as the string of its contents. -/

structure LogEnv where
  hasMeta : String → Bool
  exiftool : String → Except String String

/-- Concatenation of a list of log blocks, in order. -/
def concatBlocks : List String → String
  | [] => ""
  | b :: bs => b ++ concatBlocks bs

/-- `log_non_igmd_files(file_path, scanner, log_file, dest_dir, scan_dir)`
(lines 148–180): first component says whether the external tool was
invoked, second is the log contents afterwards. -/
def log_non_igmd_files (env : LogEnv) (file_path : String) (log : String) :
    Bool × String :=
  if env.hasMeta file_path then
    (false, log)
  else
    match env.exiftool file_path with
    | .ok stdout => (true, log ++ stdout ++ "\n")
    | .error _ => (true, log)

/-- The logging tasks of one `process_files` run over the walked file list
(lines 131–145, logging enabled): the list of paths for which the external
tool was invoked, and the final log contents. -/
def process_files_log_run (env : LogEnv) : List String → String → List String × String
  | [], log => ([], log)
  | f :: fs, log =>
      let step := log_non_igmd_files env f log
      let rest := process_files_log_run env fs step.2
      ((if step.1 then [f] else []) ++ rest.1, rest.2)

/-! ## Startup validation (`validate_directories`, lines 201–223)

Paths are modelled as lists of components (absolute, already normalized),
so `os.path.commonpath` is the longest common component prefix.  Note the
source compares `os.path.commonpath([scan_dir])` with
`os.path.commonpath([dest_dir])` — each over a SINGLETON list, which just
normalizes the single path — so the scan/dest check fires exactly when the
two paths are equal, not when one is nested in the other.  The log-file
checks do use two-element lists. -/

abbrev PyPath := List String

/-- `os.path.commonpath([p, q])` for absolute, normalized `p`, `q`. -/
def commonpath2 (p q : PyPath) : PyPath :=
  match p, q with
  | a :: p', b :: q' => if a = b then a :: commonpath2 p' q' else []
  | _, _ => []

/-- `os.path.commonpath([p])`: normalization of the single path (already
normalized in the model). -/
def commonpath1 (p : PyPath) : PyPath := p

/-- One path strictly or non-strictly inside another: `q` is nested in `p`
when `p` is a component prefix of `q`. -/
def nestedIn (q p : PyPath) : Prop := p <+: q

/-- Lines 214–223 of `validate_directories`: `true` iff the function calls
`sys.exit(1)` in its nesting checks (the scan-dir-existence check of lines
206–209 is upstream and independent). -/
def validate_directories_exits (scan_dir dest_dir : PyPath)
    (log_file : Option PyPath) : Bool :=
  if commonpath1 scan_dir = commonpath1 dest_dir then
    true
  else
    match log_file with
    | none => false
    | some lf =>
        commonpath2 lf scan_dir = scan_dir || commonpath2 lf dest_dir = dest_dir

/-! ## The metadata classifier (`diffusion_scanner.py`)

`get_file_type` (lines 86–97) sniffs the first 12 bytes.  `read_metadata`
(lines 99–114) builds a `FileParameters`: the PNG and JPEG branches delegate
to PIL-based readers (external, modelled as oracles `readPng` / `readJpeg`);
for every other sniffed type the fresh `FileParameters(path)` keeps all its
`None` defaults (`file_size`, set at line 113, is not among the fields the
classifier tests).  `contains_image_generation_metadata` (lines 154–183) is
`any([...])` over ten fields, with Python truthiness: `None`, `""` and `0`
are all falsy. -/

inductive FileType where
  | PNG | JPEG | WebP | Other
  deriving DecidableEq, Repr

def PNG_MAGIC : Bytes := [0x89, 0x50, 0x4E, 0x47]

def JPEG_MAGIC : Bytes := [0xFF, 0xD8, 0xFF]

def WEBP_MAGIC : Bytes := [0x52, 0x49, 0x46, 0x46]

/-- Python `bytes.startswith`, on our byte lists. -/
def startsWithB (h m : Bytes) : Bool := h.take m.length == m

/-- `ImageGenerationMetadata.get_file_type` (lines 86–97), applied to the
first 12 bytes of the file. -/
def get_file_type (header : Bytes) : FileType :=
  if startsWithB header PNG_MAGIC then .PNG
  else if startsWithB header JPEG_MAGIC then .JPEG
  else if (header.take 4 == WEBP_MAGIC) &&
      ((header.drop 8).take 4 == [0x57, 0x45, 0x42, 0x50]) then .WebP
  else .Other

/-- The fields of `FileParameters` that
`contains_image_generation_metadata` inspects (lines 161–172).  Numeric
fields are modelled as `Option Int`: the classifier only tests truthiness,
for which the integral embedding of `cfg_scale` is faithful (`0.0` and `0`
are both falsy, every other value truthy). -/
structure FileParameters where
  prompt : Option String := none
  negative_prompt : Option String := none
  sampler : Option String := none
  seed : Option Int := none
  cfg_scale : Option Int := none
  model : Option String := none
  model_hash : Option String := none
  width : Option Int := none
  height : Option Int := none
  parameters : Option String := none

/-- The external PIL-backed readers `_read_png_metadata` and
`_read_jpeg_metadata` (lines 116–152), as oracles from the path. -/
structure PilOracle where
  readPng : String → FileParameters
  readJpeg : String → FileParameters

/-- `ImageGenerationMetadata.read_metadata` (lines 99–114), restricted to
the fields the classifier inspects. -/
def read_metadata (pil : PilOracle) (file_path : String) (header : Bytes) :
    FileParameters :=
  match get_file_type header with
  | .PNG => pil.readPng file_path
  | .JPEG => pil.readJpeg file_path
  | _ => {}

/-- Python truthiness of an optional string (`None` and `""` falsy). -/
def truthyS : Option String → Bool
  | none => false
  | some s => !(s == "")

/-- Python truthiness of an optional number (`None` and `0` falsy). -/
def truthyI : Option Int → Bool
  | none => false
  | some i => !(i == 0)

/-- `ImageGenerationMetadata.contains_image_generation_metadata`
(lines 154–183): `any` over the ten inspected fields. -/
def contains_image_generation_metadata (pil : PilOracle) (file_path : String)
    (header : Bytes) : Bool :=
  let p := read_metadata pil file_path header
  truthyS p.prompt || truthyS p.negative_prompt || truthyS p.sampler ||
  truthyI p.seed || truthyI p.cfg_scale || truthyS p.model ||
  truthyS p.model_hash || truthyI p.width || truthyI p.height ||
  truthyS p.parameters

/-! ## Auxiliary filesystem lemmas -/

theorem fsLookup_filter_ne (p q : String) (fs : Fs) (h : p ≠ q) :
    fsLookup p (fs.filter (fun e => e.1 ≠ q)) = fsLookup p fs := by
  induction fs with
  | nil => rfl
  | cons e rest ih =>
      obtain ⟨a, b⟩ := e
      simp only [decide_not] at ih
      by_cases ha : a = q
      · simp [List.filter_cons, ha, fsLookup, ih, Ne.symm h]
      · by_cases hp : a = p
        · simp [List.filter_cons, ha, fsLookup, hp, h]
        · simp [List.filter_cons, ha, fsLookup, hp, ih]

theorem fsLookup_fsWrite_ne (p q : String) (c : Bytes) (fs : Fs) (h : p ≠ q) :
    fsLookup p (fsWrite q c fs) = fsLookup p fs := by
  simp only [fsWrite, fsLookup, if_neg (Ne.symm h)]
  exact fsLookup_filter_ne p q fs h

theorem fsLookup_fsRemove_ne (p q : String) (fs : Fs) (h : p ≠ q) :
    fsLookup p (fsRemove q fs) = fsLookup p fs :=
  fsLookup_filter_ne p q fs h

/-! # Claim theorems -/

/-- C1, counterexample.  The claim says an entry task whose extraction
raises resolves to "not matched" (returns `False`).  It does not: the call
`extract_image_from_archive` at line 101 sits BEFORE the `try:` of line 104,
so with an extraction error the task's outcome is the propagated exception,
not `False`. -/
theorem C1_counterexample :
    (process_image_in_archive ⟨.error "EntryReadError", fun _ => .ok true⟩
        "dest/arch" "p1.jpg" []).1 = .error "EntryReadError" ∧
    (process_image_in_archive ⟨.error "EntryReadError", fun _ => .ok true⟩
        "dest/arch" "p1.jpg" []).1 ≠ .ok false := by
  refine ⟨rfl, ?_⟩
  intro h
  simp [process_image_in_archive] at h

/-- C1, amended: a classifier error raised inside the `try:` block (lines
104–115) is caught and the entry task resolves to "not matched" (`.ok
false`); an extraction error (line 101, before the `try:`) is NOT caught and
propagates out of the entry task; and every sibling entry task still runs to
completion with its own verdict, which depends only on that task's own
extraction and classification outcomes. -/
theorem C1_entry_task_failures (env : TaskEnv) (sub_dir name : String) (fs : Fs) :
    (∀ content s, env.extract = .ok content → env.classify content = .error s →
        (process_image_in_archive env sub_dir name fs).1 = .ok false) ∧
    (∀ s, env.extract = .error s →
        (process_image_in_archive env sub_dir name fs).1 = .error s) ∧
    (∀ ts : List (TaskEnv × String),
        (runTasks sub_dir ts fs).1 = ts.map (fun t => taskResult t.1)) := by
  refine ⟨?_, ?_, fun ts => runTasks_fst sub_dir ts fs⟩
  · intro content s hex hcl
    simp [process_image_in_archive, hex, hcl]
  · intro s hex
    simp [process_image_in_archive, hex]

/-- C1, witness: a concrete entry task whose classifier raises resolves to
`.ok false`. -/
theorem C1_entry_task_failures_witness :
    (process_image_in_archive ⟨.ok [1, 2], fun _ => .error "ClassifierError"⟩
        "dest/arch" "p1.jpg" []).1 = .ok false :=
  (C1_entry_task_failures ⟨.ok [1, 2], fun _ => .error "ClassifierError"⟩
      "dest/arch" "p1.jpg" []).1 [1, 2] "ClassifierError" rfl rfl

/-- C4: whenever an entry task gets as far as writing its temporary file
(i.e. extraction succeeded), the temporary path `sub_dir/temp_image` is
absent from the filesystem when the task ends, on every exit path — classifier
error, classifier "no match", and classifier match alike — because the
`finally:` block of lines 116–119 removes it. -/
theorem C4_temp_file_removed (env : TaskEnv) (sub_dir name : String) (fs : Fs)
    (content : Bytes) (hex : env.extract = .ok content) :
    fsExists (pathJoin sub_dir "temp_image")
      (process_image_in_archive env sub_dir name fs).2 = false := by
  simp only [process_image_in_archive, hex]
  exact fsExists_fsRemove_self _ _

/-- C4, witness: concrete task whose classifier raises, started on a
filesystem that already contains the temporary path; the path is gone
afterwards. -/
theorem C4_temp_file_removed_witness :
    fsExists (pathJoin "dest/arch" "temp_image")
      (process_image_in_archive ⟨.ok [9], fun _ => .error "ClassifierError"⟩
        "dest/arch" "p1.jpg" [(pathJoin "dest/arch" "temp_image", [0])]).2 = false :=
  C4_temp_file_removed ⟨.ok [9], fun _ => .error "ClassifierError"⟩
    "dest/arch" "p1.jpg" [(pathJoin "dest/arch" "temp_image", [0])] [9] rfl

/-- C5: the archive verdict (lines 81–95) is `any` — the logical OR — of the
completed entry-task verdicts, computed from the full result list that
`asyncio.gather` delivers only after all tasks finish; an archive with zero
recognized-extension entries gets verdict `.ok false` (not matched). -/
theorem C5_archive_verdict (taskOf : String → TaskEnv) (sub_dir : String)
    (namelist : List String) (fs : Fs) :
    (∀ bs, collectResults (runTasks sub_dir
          ((namelist.filter recognizedEntry).map (fun n => (taskOf n, n))) fs).1 = .ok bs →
        (process_archive_core taskOf sub_dir namelist fs).1 = .ok (bs.any id)) ∧
    (namelist.filter recognizedEntry = [] →
        (process_archive_core taskOf sub_dir namelist fs).1 = .ok false) := by
  constructor
  · intro bs hbs
    simp only [process_archive_core, archiveVerdict, hbs]
  · intro hempty
    simp [process_archive_core, hempty, runTasks, archiveVerdict, collectResults]

/-- C5, witness: an archive with one matching `.png` entry and one
unrecognized `.txt` entry gets verdict `true`; an archive whose entry list
has no recognized extension gets verdict `false`. -/
theorem C5_archive_verdict_witness :
    (process_archive_core (fun _ => ⟨.ok [3], fun _ => .ok true⟩) "dest/a"
        ["p1.png", "notes.txt"] []).1 = .ok true ∧
    (process_archive_core (fun _ => ⟨.ok [3], fun _ => .ok true⟩) "dest/b"
        ["notes.txt"] []).1 = .ok false := by
  constructor
  · exact (C5_archive_verdict (fun _ => ⟨.ok [3], fun _ => .ok true⟩) "dest/a"
      ["p1.png", "notes.txt"] []).1 [true] rfl
  · exact (C5_archive_verdict (fun _ => ⟨.ok [3], fun _ => .ok true⟩) "dest/b"
      ["notes.txt"] []).2 rfl

/-- C2: `BytesIO` is referenced at lines 58/60 but bound by no import or
`def` of the module (lines 1–14), so for every path ending (after
lower-casing) in `.cbz` or `.cbr`, `process_archive` raises `NameError`
while constructing the archive handle: destination-directory resolution
(lines 64–75) is never reached, and because neither `process_archive` nor
`process_files`' `asyncio.gather` catches it, the exception escapes the
whole run whenever such a file is dispatched. -/
theorem C2_bytesio_nameerror (file_path : String)
    (h : pyEndsWith (pyLower file_path) ".cbz" = true ∨
         pyEndsWith (pyLower file_path) ".cbr" = true) :
    name_defined "BytesIO" = false ∧
    (∀ (pathExists : String → Bool) (fuel : Nat) (dest_dir : String)
        (archive_data : Bytes),
      process_archive_resolve pathExists fuel file_path dest_dir archive_data
        = .error (.nameError "BytesIO")) ∧
    (∀ (pathExists : String → Bool) (fuel : Nat) (dest_dir : String)
        (archive_data : Bytes) (files : List String),
      file_path ∈ files →
      (fileExt file_path = "cbz" ∨ fileExt file_path = "cbr") →
      process_files_outcome pathExists fuel dest_dir archive_data files ≠ .ok ()) := by
  have hnd : name_defined "BytesIO" = false := by decide
  have hres : ∀ (pathExists : String → Bool) (fuel : Nat) (dest_dir : String)
      (archive_data : Bytes),
      process_archive_resolve pathExists fuel file_path dest_dir archive_data
        = .error (.nameError "BytesIO") := by
    intro pathExists fuel dest_dir archive_data
    rcases h with h1 | h1
    · simp [process_archive_resolve, h1, hnd]
    · by_cases h2 : pyEndsWith (pyLower file_path) ".cbz" = true
      · simp [process_archive_resolve, h2, hnd]
      · simp [process_archive_resolve, h2, h1, hnd]
  refine ⟨hnd, hres, ?_⟩
  intro pathExists fuel dest_dir archive_data files hmem hext
  have hdisp : dispatch_outcome pathExists fuel dest_dir archive_data file_path
      = .error (.nameError "BytesIO") := by
    have himg : isImageExt (fileExt file_path) = false := by
      rcases hext with he | he <;> simp [he, isImageExt]
    have harch : isArchiveExt (fileExt file_path) = true := by
      rcases hext with he | he <;> simp [he, isArchiveExt]
    simp [dispatch_outcome, himg, harch, hres]
  induction files with
  | nil => cases hmem
  | cons f rest ih =>
      rcases List.mem_cons.mp hmem with heq | hmemr
      · subst heq
        simp [process_files_outcome, hdisp]
      · cases hd : dispatch_outcome pathExists fuel dest_dir archive_data f with
        | error e => simp [process_files_outcome, hd]
        | ok u => simpa [process_files_outcome, hd] using ih hmemr

/-- C2, witness: the concrete path `scan/My Comic.cbz`. -/
theorem C2_bytesio_nameerror_witness :
    process_archive_resolve (fun _ => false) 4 "scan/My Comic.cbz" "dest" [1, 2]
        = .error (.nameError "BytesIO") ∧
    process_files_outcome (fun _ => false) 4 "dest" [1, 2]
        ["scan/a.png", "scan/My Comic.cbz"] ≠ .ok () := by
  constructor
  · exact (C2_bytesio_nameerror "scan/My Comic.cbz" (Or.inl (by decide))).2.1
      (fun _ => false) 4 "dest" [1, 2]
  · exact (C2_bytesio_nameerror "scan/My Comic.cbz" (Or.inl (by decide))).2.2
      (fun _ => false) 4 "dest" [1, 2] ["scan/a.png", "scan/My Comic.cbz"]
      (by simp) (Or.inl (by decide))

/-- C3: when the archive's base name (lower-cased) contains `"merged"` or
`"chapter"`, the chosen destination directory is `dest/<base>-N` for the
smallest positive `N` whose path does not yet exist (the `while` loop of
lines 69–71, probing from `N = 1`); otherwise the plain `dest/<base>` path is
chosen irrespective of the `os.path.exists` oracle, i.e. even if it already
exists.  Two successive runs therefore yield `base-1` then `base-2` for
trigger names (see the witness). -/
theorem C3_destination_resolution (pathExists : String → Bool)
    (dest_dir file_name : String) (fuel N : Nat) :
    ((substrIn "merged" (pyLower file_name) ||
        substrIn "chapter" (pyLower file_name)) = true →
      1 ≤ N → N ≤ 1 + fuel →
      (∀ m, 1 ≤ m → m < N → pathExists (candidate dest_dir file_name m) = true) →
      pathExists (candidate dest_dir file_name N) = false →
      chooseSubDir pathExists fuel dest_dir file_name
        = candidate dest_dir file_name N) ∧
    ((substrIn "merged" (pyLower file_name) ||
        substrIn "chapter" (pyLower file_name)) = false →
      chooseSubDir pathExists fuel dest_dir file_name
        = pathJoin dest_dir file_name) := by
  constructor
  · intro htrig h1 hub htaken hfree
    simp only [chooseSubDir, htrig, if_true]
    exact probe_eq_first_free pathExists dest_dir file_name fuel 1 N h1
      (by omega) htaken hfree
  · intro htrig
    simp [chooseSubDir, htrig]

/-- C3, witness: first run against an empty destination chooses
`dest/Chapter_5-1`; a second run (only `dest/Chapter_5-1` now exists)
chooses `dest/Chapter_5-2`; a non-trigger base name keeps its plain path
even though that path already exists. -/
theorem C3_destination_resolution_witness :
    chooseSubDir (fun _ => false) 4 "dest" "Chapter_5" = "dest/Chapter_5-1" ∧
    chooseSubDir (fun p => p == "dest/Chapter_5-1") 4 "dest" "Chapter_5"
      = "dest/Chapter_5-2" ∧
    chooseSubDir (fun _ => true) 4 "dest" "OneShot" = "dest/OneShot" := by
  refine ⟨?_, ?_, ?_⟩
  · exact (C3_destination_resolution (fun _ => false) "dest" "Chapter_5" 4 1).1
      (by decide) (by omega) (by omega)
      (fun m hm hm' => absurd (lt_of_le_of_lt hm hm') (lt_irrefl 1))
      (by decide)
  · exact (C3_destination_resolution (fun p => p == "dest/Chapter_5-1")
        "dest" "Chapter_5" 4 2).1
      (by decide) (by omega) (by omega)
      (fun m hm hm' => by
        have : m = 1 := by omega
        subst this
        decide)
      (by decide)
  · exact (C3_destination_resolution (fun _ => true) "dest" "OneShot" 4 1).2
      (by decide)

/-- C6: `process_image` (lines 20–36) invokes the Metadata Classifier
(`contains_image_generation_metadata`) exactly once on the path (line 26 is
the sole call; the `read_metadata` result of line 25 is discarded), returns
a boolean, and on a match copies the file's bytes verbatim to
`dest_dir/<original base name>`.  The copied-contents conjunct holds with no
assumption on what `dest_dir/<base>` previously contained, which is exactly
"last writer wins" on a name collision. -/
theorem C6_loose_image (classify : String → Bool) (file_path dest_dir : String)
    (fs : Fs) :
    (process_image classify file_path dest_dir fs).2.2 = 1 ∧
    (classify file_path = false →
        process_image classify file_path dest_dir fs = (.ok false, fs, 1)) ∧
    (∀ content, classify file_path = true → fsLookup file_path fs = some content →
        (process_image classify file_path dest_dir fs).1 = .ok true ∧
        fsLookup (pathJoin dest_dir (baseName file_path))
          (process_image classify file_path dest_dir fs).2.1 = some content) := by
  refine ⟨?_, ?_, ?_⟩
  · cases hc : classify file_path
    · simp [process_image, hc]
    · cases hl : fsLookup file_path fs <;> simp [process_image, hc, hl]
  · intro hc
    simp [process_image, hc]
  · intro content hc hl
    refine ⟨by simp [process_image, hc, hl], ?_⟩
    simp [process_image, hc, hl]

/-- C6, witness: a matched file `scan/a.png` is copied to `dst/a.png`,
overwriting the stale contents already present there (last writer wins). -/
theorem C6_loose_image_witness :
    (process_image (fun _ => true) "scan/a.png" "dst"
        [("scan/a.png", [5, 6]), ("dst/a.png", [9])]).1 = .ok true ∧
    fsLookup (pathJoin "dst" (baseName "scan/a.png"))
      (process_image (fun _ => true) "scan/a.png" "dst"
        [("scan/a.png", [5, 6]), ("dst/a.png", [9])]).2.1 = some [5, 6] :=
  (C6_loose_image (fun _ => true) "scan/a.png" "dst"
      [("scan/a.png", [5, 6]), ("dst/a.png", [9])]).2.2 [5, 6] rfl rfl

/-- C7: with `--log_non-igmd` enabled, the Metadata Logger (`exiftool`) is
invoked exactly for the walked top-level files that the classifier says lack
metadata (lines 142–143 add a logging task for every walked file; line 153
gates on the classifier), and when the tool exits 0 for each such file, the
final log equals the initial log followed by one block `output ++ "\n"`
(trailing separator, lines 175–177) per such file.  Archive-internal misses
are never logged: an archive entry task only ever writes under its archive's
destination sub-directory (third conjunct), and the log file is validated to
lie outside the destination tree, so no entry task can touch it. -/
theorem C7_miss_logging (env : LogEnv) (files : List String) (log0 : String)
    (out : String → String) :
    (process_files_log_run env files log0).1
      = files.filter (fun f => !env.hasMeta f) ∧
    ((∀ f, env.exiftool f = .ok (out f)) →
      (process_files_log_run env files log0).2
        = log0 ++ concatBlocks ((files.filter (fun f => !env.hasMeta f)).map
            (fun f => out f ++ "\n"))) ∧
    (∀ (envT : TaskEnv) (sub_dir name p : String) (fs : Fs),
        (∀ q, p ≠ pathJoin sub_dir q) →
        fsLookup p (process_image_in_archive envT sub_dir name fs).2
          = fsLookup p fs) := by
  refine ⟨?_, ?_, ?_⟩
  · induction files generalizing log0 with
    | nil => rfl
    | cons f rest ih =>
        by_cases hm : env.hasMeta f
        · simp [process_files_log_run, log_non_igmd_files, hm, ih]
        · cases he : env.exiftool f with
          | ok o => simp [process_files_log_run, log_non_igmd_files, hm, he, ih]
          | error e => simp [process_files_log_run, log_non_igmd_files, hm, he, ih]
  · intro hok
    induction files generalizing log0 with
    | nil => simp [process_files_log_run, concatBlocks]
    | cons f rest ih =>
        by_cases hm : env.hasMeta f
        · simp [process_files_log_run, log_non_igmd_files, hm, ih]
        · simp only [process_files_log_run, log_non_igmd_files, hm, if_neg,
            Bool.false_eq_true, hok f]
          rw [ih]
          simp [List.filter_cons, hm, concatBlocks, String.append_assoc]
  · intro envT sub_dir name p fs hp
    cases hex : envT.extract with
    | error e => simp [process_image_in_archive, hex]
    | ok content =>
        simp only [process_image_in_archive, hex]
        cases hcl : envT.classify content with
        | error e =>
            simp only [hcl]
            rw [fsLookup_fsRemove_ne _ _ _ (hp "temp_image"),
              fsLookup_fsWrite_ne _ _ _ _ (hp "temp_image")]
        | ok b =>
            cases b
            · simp only [hcl]
              rw [fsLookup_fsRemove_ne _ _ _ (hp "temp_image"),
                fsLookup_fsWrite_ne _ _ _ _ (hp "temp_image")]
            · simp only [hcl]
              rw [fsLookup_fsRemove_ne _ _ _ (hp "temp_image"),
                fsLookup_fsWrite_ne _ _ _ _ (hp _),
                fsLookup_fsWrite_ne _ _ _ _ (hp "temp_image")]

/-- C7, witness: two walked files, one with metadata and one without; the
tool is invoked exactly on the latter and the log gains exactly its block. -/
theorem C7_miss_logging_witness :
    (process_files_log_run
        ⟨fun f => f == "scan/yes.png", fun f => .ok ("meta of " ++ f)⟩
        ["scan/yes.png", "scan/no.jpg"] "").1 = ["scan/no.jpg"] ∧
    (process_files_log_run
        ⟨fun f => f == "scan/yes.png", fun f => .ok ("meta of " ++ f)⟩
        ["scan/yes.png", "scan/no.jpg"] "").2 = "meta of scan/no.jpg\n" := by
  constructor
  · exact (C7_miss_logging
      ⟨fun f => f == "scan/yes.png", fun f => .ok ("meta of " ++ f)⟩
      ["scan/yes.png", "scan/no.jpg"] "" (fun f => "meta of " ++ f)).1
  · have h := (C7_miss_logging
      ⟨fun f => f == "scan/yes.png", fun f => .ok ("meta of " ++ f)⟩
      ["scan/yes.png", "scan/no.jpg"] "" (fun f => "meta of " ++ f)).2.1
      (fun f => rfl)
    simpa using h

/-- C9: the claim (and the code's own diagnostic, "Destination directory
cannot be inside the scan directory.") call for exit 1 whenever `dest_dir`
is nested inside `scan_dir` or vice versa; but line 214 compares
`os.path.commonpath([scan_dir])` with `os.path.commonpath([dest_dir])` —
commonpath of singleton lists, i.e. plain normalization — so validation only
exits when the two paths are EQUAL.  At the failing input
`scan_dir = /home/scan`, `dest_dir = /home/scan/out` (strictly nested, no
log file), validation does not exit; it does exit when the two are equal,
and the log-file checks (lines 219–223), which use two-element commonpath,
do fire on a nested log path. -/
theorem C9_nesting_check_gap :
    validate_directories_exits ["home", "scan"] ["home", "scan", "out"] none = false ∧
    nestedIn ["home", "scan", "out"] ["home", "scan"] ∧
    validate_directories_exits ["home", "scan"] ["home", "scan"] none = true ∧
    validate_directories_exits ["home", "scan"] ["home", "out"]
      (some ["home", "scan", "log.txt"]) = true := by
  refine ⟨rfl, ⟨["out"], rfl⟩, rfl, ?_⟩
  simp [validate_directories_exits, commonpath1, commonpath2]

/-- C10: for every file whose sniffed 12-byte header starts with neither the
PNG magic nor the JPEG magic — in particular every well-formed WebP file,
whose header passes `get_file_type`'s RIFF/WEBP test — `read_metadata`
returns the default `FileParameters` (all inspected fields `None`), so
`contains_image_generation_metadata` returns `False`; consequently the loose
image processor leaves the filesystem unchanged and such a file is never
copied to the destination.  Meanwhile the `webp` extension IS classified as
an image and dispatched (`process_files` line 137; shown at a concrete
name since the extension split is name-dependent). -/
theorem C10_non_png_jpeg_not_copied (pil : PilOracle) (headerOf : String → Bytes)
    (file_path dest_dir : String) (fs : Fs)
    (hpng : startsWithB (headerOf file_path) PNG_MAGIC = false)
    (hjpeg : startsWithB (headerOf file_path) JPEG_MAGIC = false) :
    contains_image_generation_metadata pil file_path (headerOf file_path) = false ∧
    process_image (fun p => contains_image_generation_metadata pil p (headerOf p))
        file_path dest_dir fs = (.ok false, fs, 1) ∧
    isImageExt (fileExt "art.webp") = true := by
  have hft : get_file_type (headerOf file_path) = FileType.WebP ∨
      get_file_type (headerOf file_path) = FileType.Other := by
    by_cases hw : (((headerOf file_path).take 4 == WEBP_MAGIC) &&
        (((headerOf file_path).drop 8).take 4 == [0x57, 0x45, 0x42, 0x50])) = true
    · exact Or.inl (by simp [get_file_type, hpng, hjpeg, hw])
    · exact Or.inr (by simp [get_file_type, hpng, hjpeg, hw])
  have hmeta : contains_image_generation_metadata pil file_path (headerOf file_path)
      = false := by
    rcases hft with hft | hft <;>
      simp [contains_image_generation_metadata, read_metadata, hft,
        truthyS, truthyI]
  refine ⟨hmeta, ?_, by decide⟩
  simp [process_image, hmeta]

/-- C10, witness: a syntactically well-formed WebP header
(`RIFF????WEBP`) is sniffed as `WebP`, classified as metadata-free, and the
loose-image step makes no copy. -/
theorem C10_non_png_jpeg_not_copied_witness :
    contains_image_generation_metadata ⟨fun _ => {}, fun _ => {}⟩ "scan/pic.webp"
      ((fun _ : String =>
        ([0x52, 0x49, 0x46, 0x46, 0, 0, 0, 0, 0x57, 0x45, 0x42, 0x50] : Bytes))
        "scan/pic.webp") = false ∧
    process_image
      (fun p => contains_image_generation_metadata ⟨fun _ => {}, fun _ => {}⟩ p
        ((fun _ : String =>
          ([0x52, 0x49, 0x46, 0x46, 0, 0, 0, 0, 0x57, 0x45, 0x42, 0x50] : Bytes)) p))
      "scan/pic.webp" "dst" [("scan/pic.webp", [1])]
      = (.ok false, [("scan/pic.webp", [1])], 1) := by
  have h := C10_non_png_jpeg_not_copied ⟨fun _ => {}, fun _ => {}⟩
    (fun _ => ([0x52, 0x49, 0x46, 0x46, 0, 0, 0, 0, 0x57, 0x45, 0x42, 0x50] : Bytes))
    "scan/pic.webp" "dst" [("scan/pic.webp", [1])] (by decide) (by decide)
  exact ⟨h.1, h.2.1⟩

end IGMD
